import Mathlib

/-!
Verification development for the session controller of the
sample-agentforce-custom-client repository: a shallow embedding of the
chat-controller hook (`useChat`, in both its server-push and polling
variants) and of the messaging client (`useSalesforceMessaging`),
together with theorems settling the specified properties.

The controller state is the tuple of React state cells of the hook
(`messages`, `isConnected`, `isLoading`, `isTyping`, `currentAgent`,
`error`) together with the mutable refs (`credsRef`, `pollingRef`).
Asynchronous backend calls are modelled by a boolean outcome parameter
(`true` = the awaited call resolved, `false` = it threw), and each
handler becomes a state-transition function.
-/

namespace AgentforceClient

/-- Lowercasing of one ASCII character, as performed by JavaScript
`String.prototype.toLowerCase` on the role strings that occur here. -/
def lowerChar (c : Char) : Char :=
  if 65 ≤ c.toNat ∧ c.toNat ≤ 90 then Char.ofNat (c.toNat + 32) else c

/-- Lowercasing of a string (` .toLowerCase()` in the source). -/
def lowerStr (s : String) : String := String.mk (s.data.map lowerChar)

/-- The `type` field of a stored `Message`: `"user" | "ai" | "system"`. -/
inductive MsgType
  | user
  | ai
  | system
deriving DecidableEq, Repr

/-- A stored chat message (interface `Message` in ../types): id, type,
content, timestamp.  Timestamps are modelled as naturals. -/
structure Message where
  id : String
  type : MsgType
  content : String
  timestamp : Nat
deriving DecidableEq, Repr

/-- The credentials record stored in `credsRef.current`.  The client
stores whatever JSON object the backend returned without validating
fields, so each field is optional: an absent JSON field is `none`. -/
structure Creds where
  accessToken : Option String
  conversationId : Option String
  orgId : Option String
  lastEventId : Option String
deriving DecidableEq, Repr

/-- The controller state: the React state cells of `useChat` plus the
refs.  `pollingActive` models whether `pollingRef.current` holds a live
interval timer (poll variant). -/
structure ChatState where
  messages : List Message
  isConnected : Bool
  isLoading : Bool
  isTyping : Bool
  currentAgent : Option String
  error : Option String
  creds : Option Creds
  pollingActive : Bool
deriving DecidableEq, Repr

/-- The state at controller construction: every cell at its `useState`
initial value, both refs null. -/
def initialState : ChatState :=
  { messages := [], isConnected := false, isLoading := false, isTyping := false,
    currentAgent := none, error := none, creds := none, pollingActive := false }

/-- One entry of the polling response body (`data.conversationEntries`),
already parsed: `entryType`, `sender.role`, and the relevant parts of
`entryPayload` (`abstractMessage.id`, `abstractMessage.staticContent.text`)
plus `clientTimestamp`. -/
structure ConversationEntry where
  entryType : String
  senderRole : String
  messageId : String
  text : String
  clientTimestamp : Nat
deriving DecidableEq, Repr

/-- The `handleMessage` listener of the server-push (SSE) variant, for a
well-formed `CONVERSATION_MESSAGE` payload: if the sender role lowercases
to `"chatbot"`, it clears the typing flag, appends the bot message with
the backend-assigned `payload.abstractMessage.id` (no membership check),
and clears the loading flag; any other role leaves the state unchanged. -/
def handleMessage (s : ChatState) (role msgId text : String) (ts : Nat) : ChatState :=
  if lowerStr role = "chatbot" then
    { s with isTyping := false,
             messages := s.messages ++ [⟨msgId, MsgType.ai, text, ts⟩],
             isLoading := false }
  else s

/-- The functional `setMessages` update inside `pollMessages` for one
filtered entry: if some stored message already has the entry's
backend-assigned id, the list is returned unchanged; otherwise the entry
is appended at the tail as an `"ai"` message. -/
def ingestPollEntry (msgs : List Message) (e : ConversationEntry) : List Message :=
  if (msgs.find? fun m => m.id == e.messageId).isSome then msgs
  else msgs ++ [⟨e.messageId, MsgType.ai, e.text, e.clientTimestamp⟩]

/-- Completion of one `pollMessages` fetch that resolved with an OK
response carrying `entries` (poll variant).  The guard at the top of
`pollMessages` returns early when `credsRef.current` is null.  When the
entry list is non-empty, the entries are filtered to
`entryType === "Message" && sender.role === "Chatbot"` (case-sensitive),
each filtered entry is ingested in order with the per-id membership
check, and the loading and typing flags are cleared. -/
def pollComplete (s : ChatState) (entries : List ConversationEntry) : ChatState :=
  match s.creds with
  | none => s
  | some _ =>
    if entries.isEmpty then s
    else
      let bots := entries.filter fun e =>
        e.entryType == "Message" && e.senderRole == "Chatbot"
      { s with messages := bots.foldl ingestPollEntry s.messages,
               isLoading := false, isTyping := false }

/-- `sendMessage(content)` of the hook (identical in both variants):
no-op when `credsRef.current` is null; otherwise appends the optimistic
user message (freshly generated id `newId`) and sets the loading flag,
then awaits the backend send.  `sendOk` is the outcome of that call: on
failure the catch block sets the error, clears the loading flag, and
removes exactly the messages whose id equals the optimistic id. -/
def sendMessage (s : ChatState) (newId content : String) (ts : Nat) (sendOk : Bool) :
    ChatState :=
  match s.creds with
  | none => s
  | some _ =>
    let appended := { s with
      messages := s.messages ++ [⟨newId, MsgType.user, content, ts⟩],
      isLoading := true }
    if sendOk then appended
    else { appended with
      error := some "Failed to send message",
      isLoading := false,
      messages := appended.messages.filter fun m => m.id != newId }

/-- `closeChat(onClosed)` of the poll variant.  Returns the new state
together with whether the `onClosed` callback was invoked.  Early return
when `credsRef.current` is null.  Otherwise the poll interval is cleared
first, then the backend close is awaited (`closeOk` its outcome): on
success the connected, typing, loading flags, agent, messages and error
are all reset and `onClosed()` runs; on failure the catch block only sets
the error ("Failed to close chat").  `credsRef` is not touched. -/
def closeChat (s : ChatState) (closeOk : Bool) : ChatState × Bool :=
  match s.creds with
  | none => (s, false)
  | some _ =>
    let stopped := { s with pollingActive := false }
    if closeOk then
      ({ stopped with isConnected := false, isTyping := false, currentAgent := none,
                      messages := [], isLoading := false, error := none }, true)
    else
      ({ stopped with error := some "Failed to close chat" }, false)

/-- Firing of the inactivity watchdog armed by `resetTimeout` (identical
in both variants): early return when `credsRef.current` is null or the
connected flag is false; otherwise the backend close is awaited
(`closeOk`): on success the connected flag is cleared and one system
message "Chat ended due to inactivity" (fresh id `newId`) is appended;
on failure the catch block only logs — no state cell changes. -/
def watchdogFire (s : ChatState) (newId : String) (ts : Nat) (closeOk : Bool) : ChatState :=
  match s.creds with
  | none => s
  | some _ =>
    if s.isConnected = false then s
    else if closeOk then
      { s with isConnected := false,
               messages := s.messages ++
                 [⟨newId, MsgType.system, "Chat ended due to inactivity", ts⟩] }
    else s

/-- The `CONVERSATION_TYPING_STARTED_INDICATOR` listener:
`if (!isLoading) setIsTyping(true)`. -/
def typingStarted (s : ChatState) : ChatState :=
  if s.isLoading then s else { s with isTyping := true }

/-- The `CONVERSATION_TYPING_STOPPED_INDICATOR` listener:
`setIsTyping(false)`. -/
def typingStopped (s : ChatState) : ChatState :=
  { s with isTyping := false }

/-- One entry of a `CONVERSATION_PARTICIPANT_CHANGED` payload:
`operation`, `participant.role`, `displayName`. -/
structure PEntry where
  operation : String
  role : String
  displayName : String
deriving DecidableEq, Repr

/-- Processing of one participant entry inside `handleParticipantChange`:
an `add` whose participant role lowercases to `"chatbot"` sets the
current agent and appends a system join message; a `remove` whose
participant role equals `"agent"` (case-sensitive in the source) clears
the current agent and appends a system leave message; the two `if`
statements run in sequence.  `newId` is the freshly generated id of the
appended system message. -/
def applyPEntry (s : ChatState) (e : PEntry) (newId : String) (ts : Nat) : ChatState :=
  let s1 :=
    if e.operation = "add" ∧ lowerStr e.role = "chatbot" then
      { s with currentAgent := some e.displayName,
               messages := s.messages ++
                 [⟨newId, MsgType.system, e.displayName ++ " has joined the chat", ts⟩] }
    else s
  if e.operation = "remove" ∧ e.role = "agent" then
    { s1 with currentAgent := none,
              messages := s1.messages ++
                [⟨newId, MsgType.system, e.displayName ++ " has left the chat", ts⟩] }
  else s1

/-- `handleParticipantChange`: the payload's `entries` are processed in
order with `forEach`; each entry is paired with the fresh id used for
any system message it appends. -/
def handleParticipantChange (s : ChatState) (entries : List (PEntry × String)) (ts : Nat) :
    ChatState :=
  entries.foldl (fun st pe => applyPEntry st pe.1 pe.2 ts) s

/-- The JSON body the `/chat/initialize` backend endpoint answered with,
as seen by the client: `ok` is `response.ok`, and the four credential
fields are each present or absent. -/
structure InitResponse where
  ok : Bool
  accessToken : Option String
  conversationId : Option String
  orgId : Option String
  lastEventId : Option String
deriving DecidableEq, Repr

/-- The client-side `initialize` of `useSalesforceMessaging`: throws
"Failed to initialize chat" when the response is not OK, and otherwise
returns `response.json()` verbatim — no field is validated. -/
def initApi (r : InitResponse) : Except String Creds :=
  if r.ok then Except.ok ⟨r.accessToken, r.conversationId, r.orgId, r.lastEventId⟩
  else Except.error "Failed to initialize chat"

/-- The success response actually produced by the bundled serverless
`/api/chat/initialize` function: it sets only `accessToken` and
`conversationId` in the body (no `orgId`, no `lastEventId`). -/
def serverInitResponse (tok conv : String) : InitResponse :=
  { ok := true, accessToken := some tok, conversationId := some conv,
    orgId := none, lastEventId := none }

/-- `startChat` of the poll variant: resets messages, loading, typing,
agent and error, awaits `initialize()`, stores the returned credentials
in `credsRef`, and starts polling (`startPolling` sets the connected
flag and installs the interval).  On initialization failure the catch
block sets the error "Failed to start chat" and clears the connected
flag; `credsRef` keeps its previous value. -/
def startChat (s : ChatState) (r : InitResponse) : ChatState :=
  let s0 := { s with messages := [], isLoading := false, isTyping := false,
                     currentAgent := none, error := none }
  match initApi r with
  | Except.ok c =>
    { s0 with creds := some c, isConnected := true, pollingActive := true }
  | Except.error _ =>
    { s0 with error := some "Failed to start chat", isConnected := false }

/-! Shared concrete data for witnesses and counterexamples. -/

/-- Sample credentials as stored after a fully populated backend response. -/
def demoCreds : Creds := ⟨some "tok", some "conv", some "org", some "evt"⟩

/-! ### Helper lemmas about poll ingestion -/

theorem ingest_nodup (msgs : List Message) (e : ConversationEntry)
    (h : (msgs.map Message.id).Nodup) :
    ((ingestPollEntry msgs e).map Message.id).Nodup := by
  unfold ingestPollEntry
  by_cases hf : (msgs.find? fun m => m.id == e.messageId).isSome
  · simpa [hf] using h
  · rw [if_neg hf]
    have hnone : msgs.find? (fun m => m.id == e.messageId) = none :=
      Option.not_isSome_iff_eq_none.mp hf
    have hnotmem : e.messageId ∉ msgs.map Message.id := by
      intro hmem
      obtain ⟨m, hm, hid⟩ := List.mem_map.mp hmem
      have := List.find?_eq_none.mp hnone m hm
      simp [hid] at this
    rw [List.map_append, List.nodup_append]
    refine ⟨h, List.nodup_singleton _, ?_⟩
    intro a ha hb
    simp only [List.map_cons, List.map_nil, List.mem_singleton] at hb
    exact hnotmem (hb ▸ ha)

theorem fold_ingest_nodup (bots : List ConversationEntry) (msgs : List Message)
    (h : (msgs.map Message.id).Nodup) :
    ((bots.foldl ingestPollEntry msgs).map Message.id).Nodup := by
  induction bots generalizing msgs with
  | nil => simpa using h
  | cons e rest ih => exact ih _ (ingest_nodup msgs e h)

theorem ingest_idem (msgs : List Message) (e : ConversationEntry) :
    ingestPollEntry (ingestPollEntry msgs e) e = ingestPollEntry msgs e := by
  unfold ingestPollEntry
  by_cases hf : (msgs.find? fun m => m.id == e.messageId).isSome
  · simp [hf]
  · rw [if_neg hf]
    have hsome :
        (List.find? (fun m => m.id == e.messageId)
          (msgs ++ [Message.mk e.messageId MsgType.ai e.text e.clientTimestamp])).isSome := by
      rw [List.find?_isSome]
      refine ⟨Message.mk e.messageId MsgType.ai e.text e.clientTimestamp, ?_, ?_⟩
      · simp
      · simp
    rw [if_pos hsome]

/-! ### Claim C1 -/

/-- A state holding one stored agent message with backend id "m1". -/
def c1State : ChatState :=
  { messages := [⟨"m1", MsgType.ai, "hello", 0⟩], isConnected := true, isLoading := false,
    isTyping := false, currentAgent := none, error := none, creds := some demoCreds,
    pollingActive := false }

/-- Claim C1 counterexample: in the stream (SSE) variant, `handleMessage`
performs no membership check, so redelivering a `CONVERSATION_MESSAGE`
whose backend id "m1" is already stored appends a second entry with the
same id — the store's ids are no longer pairwise distinct. -/
theorem stream_redelivery_duplicates_id :
    ¬ (((handleMessage c1State "Chatbot" "m1" "hello" 1).messages.map Message.id).Nodup) := by
  decide

/-- Claim C1 (amended): idempotent ingestion holds for the poll variant
only.  A completed poll preserves pairwise distinctness of stored ids,
and re-ingesting the same entry twice equals ingesting it once; the
stream variant appends without any dedup check (see the counterexample). -/
theorem poll_ingest_dedup (s : ChatState) (entries : List ConversationEntry)
    (e : ConversationEntry) (msgs : List Message)
    (h : (s.messages.map Message.id).Nodup) :
    ((pollComplete s entries).messages.map Message.id).Nodup ∧
    ingestPollEntry (ingestPollEntry msgs e) e = ingestPollEntry msgs e := by
  refine ⟨?_, ingest_idem msgs e⟩
  unfold pollComplete
  cases hc : s.creds with
  | none => simpa using h
  | some c =>
    by_cases he : entries.isEmpty
    · simpa [he] using h
    · simpa [he] using fold_ingest_nodup _ _ h

/-- A fresh poll entry used in the C1 witness. -/
def c1Entry : ConversationEntry := ⟨"Message", "Chatbot", "m2", "hi", 3⟩

/-- Witness for the C1 theorem at a concrete input. -/
theorem poll_ingest_dedup_witness :
    (c1State.messages.map Message.id).Nodup ∧
    (((pollComplete c1State [c1Entry]).messages.map Message.id).Nodup ∧
      ingestPollEntry (ingestPollEntry [] c1Entry) c1Entry = ingestPollEntry [] c1Entry) :=
  ⟨by decide, poll_ingest_dedup c1State [c1Entry] c1Entry [] (by decide)⟩

/-! ### Claim C2 -/

/-- Claim C2: with active credentials and a freshly generated optimistic id,
`sendMessage` appends the optimistic user message immediately (success case
keeps it); on backend failure it surfaces the error, clears the loading flag,
and removes exactly the message with the optimistic id, so the store equals
its pre-send state — a pre-existing message with identical content but a
different id is untouched. -/
theorem send_failure_rollback (s : ChatState) (newId content : String) (ts : Nat)
    (hc : s.creds.isSome) (hfresh : newId ∉ s.messages.map Message.id) :
    (sendMessage s newId content ts false).messages = s.messages ∧
    (sendMessage s newId content ts false).error = some "Failed to send message" ∧
    (sendMessage s newId content ts false).isLoading = false ∧
    (sendMessage s newId content ts true).messages
      = s.messages ++ [⟨newId, MsgType.user, content, ts⟩] := by
  obtain ⟨c, hcc⟩ := Option.isSome_iff_exists.mp hc
  have hkeep : s.messages.filter (fun m => m.id != newId) = s.messages := by
    rw [List.filter_eq_self]
    intro m hm
    have : m.id ≠ newId := by
      intro heq
      exact hfresh (heq ▸ List.mem_map_of_mem Message.id hm)
    simpa using this
  unfold sendMessage
  rw [hcc]
  refine ⟨?_, by simp, by simp, by simp⟩
  simp only [List.filter_append, hkeep]
  simp

/-- A state with one stored user message "hi" (id "u1") and credentials. -/
def c2State : ChatState :=
  { messages := [⟨"u1", MsgType.user, "hi", 0⟩], isConnected := true, isLoading := false,
    isTyping := false, currentAgent := none, error := none, creds := some demoCreds,
    pollingActive := true }

/-- Witness for C2: sending "hi" again (same content, fresh id "u2") and
failing rolls back to exactly the prior store — the older "hi" survives. -/
theorem send_failure_rollback_witness :
    c2State.creds.isSome ∧ ("u2" ∉ c2State.messages.map Message.id) ∧
    ((sendMessage c2State "u2" "hi" 7 false).messages = c2State.messages ∧
     (sendMessage c2State "u2" "hi" 7 false).error = some "Failed to send message" ∧
     (sendMessage c2State "u2" "hi" 7 false).isLoading = false ∧
     (sendMessage c2State "u2" "hi" 7 true).messages
       = c2State.messages ++ [⟨"u2", MsgType.user, "hi", 7⟩]) :=
  ⟨by decide, by decide, send_failure_rollback c2State "u2" "hi" 7 (by decide) (by decide)⟩

/-! ### Claim C3 -/

/-- A mid-conversation state: nonempty store, connected, typing, agent set. -/
def c3State : ChatState :=
  { messages := [⟨"u1", MsgType.user, "hi", 0⟩, ⟨"m1", MsgType.ai, "hello", 1⟩],
    isConnected := true, isLoading := false, isTyping := true,
    currentAgent := some "Agent Smith", error := none, creds := some demoCreds,
    pollingActive := true }

/-- Claim C3 counterexample: `closeChat` with a failing backend close leaves
the messages list uncleared, the connected flag true, the agent still set, and
never invokes the completion callback — local teardown does not proceed. -/
theorem close_failure_keeps_state :
    (closeChat c3State false).1.messages ≠ [] ∧
    (closeChat c3State false).1.messages = c3State.messages ∧
    (closeChat c3State false).1.isConnected = true ∧
    (closeChat c3State false).1.currentAgent = some "Agent Smith" ∧
    (closeChat c3State false).2 = false := by decide

/-- Claim C3 (amended): when the backend close fails, only the error is
surfaced ("Failed to close chat") and the poll timer — cancelled before the
backend call — stays cancelled; messages, typing flag, roster, loading flag,
connected flag and credentials are left unchanged and the completion callback
is not invoked.  Local state is cleared and the callback runs only when the
backend close succeeds. -/
theorem close_behavior (s : ChatState) (hc : s.creds.isSome) :
    closeChat s false
      = ({ s with pollingActive := false, error := some "Failed to close chat" }, false) ∧
    closeChat s true
      = ({ s with pollingActive := false, isConnected := false, isTyping := false,
                  currentAgent := none, messages := [], isLoading := false,
                  error := none }, true) := by
  obtain ⟨c, hcc⟩ := Option.isSome_iff_exists.mp hc
  unfold closeChat
  rw [hcc]
  exact ⟨rfl, rfl⟩

/-- Witness for the C3 theorem at a concrete input. -/
theorem close_behavior_witness :
    c3State.creds.isSome ∧
    (closeChat c3State false
      = ({ c3State with pollingActive := false,
                        error := some "Failed to close chat" }, false) ∧
     closeChat c3State true
      = ({ c3State with pollingActive := false, isConnected := false, isTyping := false,
                        currentAgent := none, messages := [], isLoading := false,
                        error := none }, true)) :=
  ⟨by decide, close_behavior c3State (by decide)⟩

/-! ### Claim C4 -/

/-- Claim C4 counterexample: after `closeChat` succeeds, `credsRef` still
holds the session credentials, and a subsequent `sendMessage` is not a no-op:
it appends the optimistic user message to the emptied store (and would issue
the backend call). -/
theorem creds_survive_close :
    (closeChat c3State true).1.creds = some demoCreds ∧
    (sendMessage (closeChat c3State true).1 "u9" "again" 7 true).messages
      = [⟨"u9", MsgType.user, "again", 7⟩] ∧
    (watchdogFire c3State "w1" 9 true).creds = some demoCreds := by decide

/-- Claim C4 (amended): neither `closeChat` (either outcome) nor watchdog
expiry clears the stored credentials; they are only overwritten wholesale by
`startChat`.  Consequently a `send` after a completed close still proceeds,
appending its optimistic message to the emptied store. -/
theorem creds_not_cleared (s : ChatState) (ok1 ok2 : Bool)
    (newId content wId : String) (ts wts : Nat) (hc : s.creds.isSome) :
    (closeChat s ok1).1.creds = s.creds ∧
    (watchdogFire s wId wts ok2).creds = s.creds ∧
    (sendMessage (closeChat s true).1 newId content ts true).messages
      = [⟨newId, MsgType.user, content, ts⟩] ∧
    (startChat s (InitResponse.mk true (some "a") (some "b") (some "c") (some "d"))).creds
      = some ⟨some "a", some "b", some "c", some "d"⟩ := by
  obtain ⟨c, hcc⟩ := Option.isSome_iff_exists.mp hc
  refine ⟨?_, ?_, ?_, ?_⟩
  · unfold closeChat
    rw [hcc]
    cases ok1 <;> rfl
  · unfold watchdogFire
    rw [hcc]
    by_cases hconn : s.isConnected = false
    · simp [hconn, hcc]
    · cases ok2 <;> simp [hconn, hcc]
  · unfold closeChat
    rw [hcc]
    unfold sendMessage
    rfl
  · unfold startChat initApi
    rfl

/-- Witness for the C4 theorem at a concrete input. -/
theorem creds_not_cleared_witness :
    c3State.creds.isSome ∧
    ((closeChat c3State false).1.creds = c3State.creds ∧
     (watchdogFire c3State "w1" 9 true).creds = c3State.creds ∧
     (sendMessage (closeChat c3State true).1 "u9" "again" 7 true).messages
       = [⟨"u9", MsgType.user, "again", 7⟩] ∧
     (startChat c3State (InitResponse.mk true (some "a") (some "b") (some "c")
         (some "d"))).creds = some ⟨some "a", some "b", some "c", some "d"⟩) :=
  ⟨by decide, creds_not_cleared c3State false true "u9" "again" "w1" 7 9 (by decide)⟩

/-! ### Claim C5 -/

/-- The chatbot entry carried by a poll request that was in flight when
close() ran. -/
def staleEntry : ConversationEntry := ⟨"Message", "Chatbot", "m9", "late reply", 9⟩

/-- Claim C5 counterexample: a poll fetch in flight when `closeChat`
succeeded still delivers afterward: since credentials were not cleared, its
chatbot entry passes the guard and is appended — the store, emptied by close,
becomes non-empty again, so a `MessageReceived` event is accepted after close. -/
theorem stale_poll_after_close_appends :
    (pollComplete (closeChat c3State true).1 [staleEntry]).messages
      = [⟨"m9", MsgType.ai, "late reply", 9⟩] := by decide

/-- Claim C5 (amended): a successful close cancels the poll interval (so no
further poll cycles start) and leaves `messages = []` with the connected flag
false; but the result of an in-flight poll that resolves after close is not
discarded: its chatbot entries are ingested into the emptied store. -/
theorem close_cancels_timer_not_inflight (s : ChatState) (e : ConversationEntry)
    (hc : s.creds.isSome) (ht : e.entryType = "Message") (hr : e.senderRole = "Chatbot") :
    (closeChat s true).1.pollingActive = false ∧
    (closeChat s true).1.messages = [] ∧
    (closeChat s true).1.isConnected = false ∧
    (pollComplete (closeChat s true).1 [e]).messages
      = [⟨e.messageId, MsgType.ai, e.text, e.clientTimestamp⟩] := by
  obtain ⟨c, hcc⟩ := Option.isSome_iff_exists.mp hc
  unfold closeChat
  rw [hcc]
  refine ⟨rfl, rfl, rfl, ?_⟩
  unfold pollComplete
  simp [ht, hr, ingestPollEntry]

/-- Witness for the C5 theorem at a concrete input. -/
theorem close_cancels_timer_not_inflight_witness :
    c3State.creds.isSome ∧ staleEntry.entryType = "Message" ∧
    staleEntry.senderRole = "Chatbot" ∧
    ((closeChat c3State true).1.pollingActive = false ∧
     (closeChat c3State true).1.messages = [] ∧
     (closeChat c3State true).1.isConnected = false ∧
     (pollComplete (closeChat c3State true).1 [staleEntry]).messages
       = [⟨staleEntry.messageId, MsgType.ai, staleEntry.text,
            staleEntry.clientTimestamp⟩]) :=
  ⟨by decide, by decide, by decide,
    close_cancels_timer_not_inflight c3State staleEntry (by decide) (by decide) (by decide)⟩

/-! ### Claim C6 -/

/-- Claim C6: when the watchdog fires with credentials present and the
connected flag true, the backend close is issued; on success the connected
flag becomes false and exactly one system message "Chat ended due to
inactivity" is appended (credentials, store prefix, and all other cells are
untouched); on failure the state is left exactly as it was. -/
theorem watchdog_fire_behavior (s : ChatState) (newId : String) (ts : Nat)
    (hc : s.creds.isSome) (hconn : s.isConnected = true) :
    watchdogFire s newId ts true
      = { s with isConnected := false,
                 messages := s.messages ++
                   [⟨newId, MsgType.system, "Chat ended due to inactivity", ts⟩] } ∧
    watchdogFire s newId ts false = s := by
  obtain ⟨c, hcc⟩ := Option.isSome_iff_exists.mp hc
  unfold watchdogFire
  rw [hcc]
  simp [hconn]

/-- Witness for the C6 theorem at a concrete input. -/
theorem watchdog_fire_behavior_witness :
    c3State.creds.isSome ∧ c3State.isConnected = true ∧
    (watchdogFire c3State "w1" 9 true
      = { c3State with isConnected := false,
                       messages := c3State.messages ++
                         [⟨"w1", MsgType.system, "Chat ended due to inactivity", 9⟩] } ∧
     watchdogFire c3State "w1" 9 false = c3State) :=
  ⟨by decide, by decide, watchdog_fire_behavior c3State "w1" 9 (by decide) (by decide)⟩

/-! ### Claim C7 -/

/-- A fully populated successful initialize response. -/
def fullResp : InitResponse :=
  { ok := true, accessToken := some "tok", conversationId := some "conv",
    orgId := some "org", lastEventId := some "evt" }

/-- A reachable state with a send pending and the typing flag true: start,
then `TypingStarted` (no send pending, flag becomes true), then a successful
`send` (loading becomes true; the send path never touches the typing flag). -/
def c7State : ChatState :=
  sendMessage (typingStarted (startChat initialState fullResp)) "u1" "hi" 5 true

/-- Claim C7 counterexample: in the reachable state `c7State` a send is
pending and the typing flag is already true; a further `TypingStarted` leaves
the flag true — it is not left false as the claim states. -/
theorem typing_started_pending_not_false :
    c7State.isLoading = true ∧ (typingStarted c7State).isTyping = true := by decide

/-- Claim C7 (amended): `TypingStarted` sets the typing flag true only when no
send is pending, and leaves the state entirely unchanged (rather than forcing
the flag false) when one is; `TypingStopped` always clears the flag; an agent
`MessageReceived` (role lowercasing to "chatbot") clears both the typing flag
and the pending-response flag regardless of any `TypingStopped`. -/
theorem typing_flag_behavior (s : ChatState) (role msgId text : String) (ts : Nat)
    (hrole : lowerStr role = "chatbot") :
    (s.isLoading = false → (typingStarted s).isTyping = true) ∧
    (s.isLoading = true → typingStarted s = s) ∧
    (typingStopped s).isTyping = false ∧
    (handleMessage s role msgId text ts).isTyping = false ∧
    (handleMessage s role msgId text ts).isLoading = false := by
  refine ⟨?_, ?_, rfl, ?_, ?_⟩
  · intro h
    unfold typingStarted
    simp [h]
  · intro h
    unfold typingStarted
    simp [h]
  · unfold handleMessage
    simp [hrole]
  · unfold handleMessage
    simp [hrole]

/-- Witness for the C7 theorem at a concrete input (the typing-suppression
branch exercised on `c7State`, whose loading flag is true). -/
theorem typing_flag_behavior_witness :
    lowerStr "Chatbot" = "chatbot" ∧ c7State.isLoading = true ∧
    typingStarted c7State = c7State :=
  ⟨by decide, by decide,
    (typing_flag_behavior c7State "Chatbot" "m1" "hello" 6 (by decide)).2.1 (by decide)⟩

/-! ### Claim C8 -/

/-- Claim C8: each participant entry is processed in order (the fold steps
through the list), and per entry: an `add` whose role lowercases to "chatbot"
sets the current agent to the entry's display name and appends exactly one
system join message; a `remove` whose role equals "agent" clears the current
agent and appends exactly one system leave message; every other
operation/role combination changes nothing. -/
theorem participant_entry_behavior (s : ChatState) (e : PEntry) (newId : String) (ts : Nat) :
    (e.operation = "add" → lowerStr e.role = "chatbot" →
      applyPEntry s e newId ts
        = { s with currentAgent := some e.displayName,
                   messages := s.messages ++
                     [⟨newId, MsgType.system, e.displayName ++ " has joined the chat",
                        ts⟩] }) ∧
    (e.operation = "remove" → e.role = "agent" →
      applyPEntry s e newId ts
        = { s with currentAgent := none,
                   messages := s.messages ++
                     [⟨newId, MsgType.system, e.displayName ++ " has left the chat",
                        ts⟩] }) ∧
    (¬ (e.operation = "add" ∧ lowerStr e.role = "chatbot") →
     ¬ (e.operation = "remove" ∧ e.role = "agent") →
      applyPEntry s e newId ts = s) ∧
    (∀ (p : PEntry × String) (rest : List (PEntry × String)),
      handleParticipantChange s (p :: rest) ts
        = handleParticipantChange (applyPEntry s p.1 p.2 ts) rest ts) := by
  refine ⟨?_, ?_, ?_, fun p rest => rfl⟩
  · intro hop hrole
    have hne : ¬ (e.operation = "remove" ∧ e.role = "agent") := by
      rintro ⟨h1, -⟩
      rw [hop] at h1
      exact absurd h1 (by decide)
    unfold applyPEntry
    rw [if_neg hne, if_pos ⟨hop, hrole⟩]
  · intro hop hrole
    have hne : ¬ (e.operation = "add" ∧ lowerStr e.role = "chatbot") := by
      rintro ⟨h1, -⟩
      rw [hop] at h1
      exact absurd h1 (by decide)
    unfold applyPEntry
    rw [if_pos ⟨hop, hrole⟩, if_neg hne]
  · intro h1 h2
    unfold applyPEntry
    rw [if_neg h1, if_neg h2]

/-- The spec scenario's join entry: add, role "chatbot", "Agent Smith". -/
def joinEntry : PEntry := ⟨"add", "chatbot", "Agent Smith"⟩

/-- Witness for the C8 theorem at the spec's scenario input: the add of
role "chatbot" with display name "Agent Smith". -/
theorem participant_entry_behavior_witness :
    joinEntry.operation = "add" ∧ lowerStr joinEntry.role = "chatbot" ∧
    applyPEntry c2State joinEntry "s1" 4
      = { c2State with
            currentAgent := some "Agent Smith",
            messages := c2State.messages ++
              [⟨"s1", MsgType.system, "Agent Smith has joined the chat", 4⟩] } :=
  ⟨by decide, by decide,
    by
      have h := (participant_entry_behavior c2State joinEntry "s1" 4).1 rfl (by decide)
      simpa [joinEntry] using h⟩

/-! ### Claim C9 -/

/-- Claim C9 counterexample: the response the bundled serverless initialize
endpoint actually produces — `accessToken` and `conversationId` only, no
`orgId`, no `lastEventId` — does not fail startup: no error is surfaced, the
connected flag becomes true, and credentials are stored with the two required
fields absent. -/
theorem startup_succeeds_without_required_fields :
    (startChat initialState (serverInitResponse "tok" "conv")).error = none ∧
    (startChat initialState (serverInitResponse "tok" "conv")).isConnected = true ∧
    (startChat initialState (serverInitResponse "tok" "conv")).creds
      = some ⟨some "tok", some "conv", none, none⟩ := by decide

/-- Claim C9 (amended): the client-side initialize performs no field
validation — it stores `response.json()` verbatim.  Startup fails (error
"Failed to start chat", disconnected, credentials untouched) exactly when the
HTTP response is not OK; any OK response, even one missing orgId or
lastEventId, yields an active session whose credential record carries the
response's fields as-is. -/
theorem startup_fails_only_on_http_failure (s : ChatState) (r : InitResponse) :
    (r.ok = true →
      startChat s r
        = { s with messages := [], isLoading := false, isTyping := false,
                   currentAgent := none, error := none,
                   creds := some ⟨r.accessToken, r.conversationId, r.orgId, r.lastEventId⟩,
                   isConnected := true, pollingActive := true }) ∧
    (r.ok = false →
      startChat s r
        = { s with messages := [], isLoading := false, isTyping := false,
                   currentAgent := none, error := some "Failed to start chat",
                   isConnected := false }) := by
  constructor
  · intro h
    unfold startChat initApi
    rw [h]
    rfl
  · intro h
    unfold startChat initApi
    rw [h]
    rfl

/-- Witness for the C9 theorem at a concrete input (a not-OK response). -/
theorem startup_fails_only_on_http_failure_witness :
    (InitResponse.mk false none none none none).ok = false ∧
    startChat c3State (InitResponse.mk false none none none none)
      = { c3State with messages := [], isLoading := false, isTyping := false,
                       currentAgent := none, error := some "Failed to start chat",
                       isConnected := false } :=
  ⟨rfl, (startup_fails_only_on_http_failure c3State
    (InitResponse.mk false none none none none)).2 rfl⟩

/-! ### Claim C10 -/

theorem mem_fold_ingest (bots : List ConversationEntry) (msgs : List Message)
    (m : Message) (hm : m ∈ bots.foldl ingestPollEntry msgs) :
    m ∈ msgs ∨ (m.type = MsgType.ai ∧ ∃ e ∈ bots, m.id = e.messageId) := by
  induction bots generalizing msgs with
  | nil => exact Or.inl (by simpa using hm)
  | cons e rest ih =>
    rcases ih (ingestPollEntry msgs e) (by simpa using hm) with h | ⟨hty, f, hf, hid⟩
    · unfold ingestPollEntry at h
      by_cases hfind : (msgs.find? fun x => x.id == e.messageId).isSome
      · rw [if_pos hfind] at h
        exact Or.inl h
      · rw [if_neg hfind] at h
        rcases List.mem_append.mp h with h1 | h2
        · exact Or.inl h1
        · right
          rcases List.mem_singleton.mp h2 with rfl
          exact ⟨rfl, e, List.mem_cons_self e rest, rfl⟩
    · exact Or.inr ⟨hty, f, List.mem_cons_of_mem e hf, hid⟩

/-- Claim C10: the only backend-originated entries ever appended are chat
messages from a "Chatbot" sender, and every such stored message has the agent
("ai") kind.  Poll variant: every message after a completed poll either was
already stored or is an "ai" message arising from an entry with
`entryType = "Message"` and `sender.role = "Chatbot"`.  Stream variant:
`handleMessage` for any role not lowercasing to "chatbot" changes nothing,
and everything it ever appends has the "ai" kind. -/
theorem backend_ingest_chatbot_only (s : ChatState) (entries : List ConversationEntry)
    (role msgId text : String) (ts : Nat) :
    (∀ m ∈ (pollComplete s entries).messages,
      m ∈ s.messages ∨
        (m.type = MsgType.ai ∧ ∃ e ∈ entries,
          e.entryType = "Message" ∧ e.senderRole = "Chatbot" ∧ m.id = e.messageId)) ∧
    (lowerStr role ≠ "chatbot" → handleMessage s role msgId text ts = s) ∧
    (∀ m ∈ (handleMessage s role msgId text ts).messages,
      m ∈ s.messages ∨ m.type = MsgType.ai) := by
  refine ⟨?_, ?_, ?_⟩
  · intro m hm
    unfold pollComplete at hm
    cases hc : s.creds with
    | none =>
      rw [hc] at hm
      exact Or.inl hm
    | some c =>
      rw [hc] at hm
      by_cases he : entries.isEmpty
      · rw [if_pos he] at hm
        exact Or.inl hm
      · rw [if_neg he] at hm
        simp only at hm
        rcases mem_fold_ingest _ _ m hm with h | ⟨hty, f, hf, hid⟩
        · exact Or.inl h
        · right
          obtain ⟨hfmem, hfprop⟩ := List.mem_filter.mp hf
          refine ⟨hty, f, hfmem, ?_, ?_, hid⟩
          · have := (Bool.and_eq_true _ _).mp hfprop
            exact eq_of_beq this.1
          · have := (Bool.and_eq_true _ _).mp hfprop
            exact eq_of_beq this.2
  · intro h
    unfold handleMessage
    rw [if_neg h]
  · intro m hm
    unfold handleMessage at hm
    by_cases h : lowerStr role = "chatbot"
    · rw [if_pos h] at hm
      simp only at hm
      rcases List.mem_append.mp hm with h1 | h2
      · exact Or.inl h1
      · rcases List.mem_singleton.mp h2 with rfl
        exact Or.inr rfl
    · rw [if_neg h] at hm
      exact Or.inl hm

/-- Witness for the C10 theorem at a concrete input: an end-user role event
leaves the state unchanged. -/
theorem backend_ingest_chatbot_only_witness :
    lowerStr "EndUser" ≠ "chatbot" ∧
    handleMessage c3State "EndUser" "m5" "spam" 2 = c3State :=
  ⟨by decide,
    (backend_ingest_chatbot_only c3State [] "EndUser" "m5" "spam" 2).2.1 (by decide)⟩

end AgentforceClient
